import Mathlib

/-!
Verification development for the gallery API of `visionary-lab`
(`src/backend/api/endpoints/gallery.py`).

The Python handlers are shallowly embedded: external SDK calls
(Azure blob storage, Cosmos DB, `json.loads`, `generate_container_sas`)
are modelled as explicit outcome parameters packaged in "world" records,
Python exceptions become an explicit `PyExn` sum, and FastAPI's
dependency/try-except control flow becomes ordinary pattern matching.
-/

set_option autoImplicit false

namespace VisionaryLab

/-- A JSON value, as produced by `json.loads`. -/
inductive JsonVal where
  | null
  | bool (b : Bool)
  | num (n : Int)
  | str (s : String)
  | arr (elems : List JsonVal)
  | obj (fields : List (String × JsonVal))
deriving Repr

mutual

/-- Embedding of Python `json.dumps` with its default separators. -/
def dumps : JsonVal → String
  | .null => "null"
  | .bool b => cond b "true" "false"
  | .num n => toString n
  | .str s => "\"" ++ s ++ "\""
  | .arr xs => "[" ++ dumpsArr xs ++ "]"
  | .obj kvs => "\x7b" ++ dumpsObj kvs ++ "\x7d"

/-- Comma-joined serialization of a JSON array's elements. -/
def dumpsArr : List JsonVal → String
  | [] => ""
  | [x] => dumps x
  | x :: y :: xs => dumps x ++ ", " ++ dumpsArr (y :: xs)

/-- Comma-joined serialization of a JSON object's fields. -/
def dumpsObj : List (String × JsonVal) → String
  | [] => ""
  | [kv] => "\"" ++ kv.1 ++ "\": " ++ dumps kv.2
  | kv :: kw :: kvs => "\"" ++ kv.1 ++ "\": " ++ dumps kv.2 ++ ", " ++ dumpsObj (kw :: kvs)

end

/-- `True` for the JSON values Python considers `dict` or `list` instances. -/
def JsonVal.isStructured : JsonVal → Bool
  | .obj _ => true
  | .arr _ => true
  | _ => false

/-- Python truthiness of a JSON value (`if metadata_dict:`). -/
def JsonVal.pyTruthy : JsonVal → Bool
  | .null => false
  | .bool b => b
  | .num n => decide (n ≠ 0)
  | .str s => !s.isEmpty
  | .arr xs => !xs.isEmpty
  | .obj kvs => !kvs.isEmpty

/--
The metadata-normalisation loop of `upload_asset`
(gallery.py lines 396-401): keys with `None` values are deleted,
`dict`/`list` values are replaced by `json.dumps(value)`, every other
entry is left unchanged.
-/
def sanitizeMetadata (m : List (String × JsonVal)) : List (String × JsonVal) :=
  m.filterMap fun kv =>
    match kv.2 with
    | JsonVal.null => none
    | v => if v.isStructured then some (kv.1, JsonVal.str (dumps v)) else some (kv.1, v)

/-- The `MediaType` enum of the backend models. -/
inductive MediaType where
  | image
  | video
deriving DecidableEq, Repr

/-- `media_type.value` of the Python enum. -/
def MediaType.value : MediaType → String
  | .image => "image"
  | .video => "video"

/-- The configuration fields `settings.*` read by the gallery endpoints. -/
structure Settings where
  cosmosEndpoint : Option String
  cosmosKey : Option String
  useManagedIdentity : Bool
  imageContainer : String
  videoContainer : String
  storageAccountName : String
deriving DecidableEq, Repr

/-- Python truthiness of an optional string setting. -/
def pyTruthyOpt : Option String → Bool
  | none => false
  | some s => !s.isEmpty

/-- A Python exception as observed by the handlers: either a FastAPI
`HTTPException` carrying a status code and detail, or any other exception
carrying its message. -/
inductive PyExn where
  | http (status : Nat) (detail : String)
  | err (msg : String)
deriving DecidableEq, Repr

/-- `str(e)` on an exception (`starlette.HTTPException.__str__` prints
`"{status_code}: {detail}"`). -/
def PyExn.str : PyExn → String
  | .http status detail => toString status ++ ": " ++ detail
  | .err msg => msg

/-- The HTTP outcome of a request: a success payload or an error status. -/
inductive Response (α : Type) where
  | ok (payload : α)
  | httpError (status : Nat) (detail : String)
deriving DecidableEq, Repr

/-- The status code of a response, `none` on success. -/
def Response.errorStatus {α : Type} : Response α → Option Nat
  | .ok _ => none
  | .httpError s _ => some s

/-- An uncaught exception escaping a dependency becomes the response. -/
def PyExn.toResponse {α : Type} : PyExn → Response α
  | .http s d => .httpError s d
  | .err m => .httpError 500 m

/--
`get_cosmos_service` (gallery.py lines 43-67): raises `HTTPException(503)`
when the Cosmos endpoint is unconfigured or no credential is available,
and converts a `CosmosDBService()` constructor failure into a 503.
`initFailure` models whether the constructor raises.
-/
def get_cosmos_service (s : Settings) (initFailure : Option String) : Except PyExn Unit :=
  if pyTruthyOpt s.cosmosEndpoint then
    if pyTruthyOpt s.cosmosKey || s.useManagedIdentity then
      match initFailure with
      | some msg => .error (.http 503 ("Failed to initialize Cosmos DB service: " ++ msg))
      | none => .ok ()
    else
      .error (.http 503 "Cosmos DB endpoint configured but no API key or managed identity enabled")
  else
    .error (.http 503
      "Cosmos DB not configured. Please set AZURE_COSMOS_DB_ENDPOINT and AZURE_COSMOS_DB_KEY")

/-! ## The upload endpoint (`POST /upload`, gallery.py lines 358-449) -/

/-- The allowed image extensions (gallery.py line 376). -/
def imageExtensions : List String := [".jpg", ".jpeg", ".png", ".gif", ".webp", ".svg", ".bmp"]

/-- The allowed video extensions (gallery.py line 378). -/
def videoExtensions : List String := [".mp4", ".mov", ".avi", ".wmv", ".webm", ".mkv"]

/-- `valid_types` as selected from the declared media type. -/
def validExtensions : MediaType → List String
  | .image => imageExtensions
  | .video => videoExtensions

/-- The fields of the dictionary returned by
`azure_storage_service.upload_asset` and spread into the response. -/
structure BlobUploadResult where
  blob_name : String
  container : String
  url : String
  original_filename : String
  size : Nat
  content_type : String
  folder_path : String
deriving DecidableEq, Repr

/-- The successful payload of `POST /upload` (`AssetUploadResponse`). -/
structure AssetUploadResponse where
  success : Bool
  message : String
  result : BlobUploadResult
deriving DecidableEq, Repr

/-- The external outcomes a single `POST /upload` request can observe. -/
structure UploadWorld where
  settings : Settings
  cosmosInitFailure : Option String
  blobUpload : Except String BlobUploadResult
  cosmosCreateFailure : Option String
deriving Repr

/-- The multipart form of a `POST /upload` request. `metadata` carries the
raw field together with the outcome of `json.loads` on it (`Except.error`
models `json.JSONDecodeError`). -/
structure UploadRequest where
  filename : String
  media_type : MediaType
  metadata : Option (Except Unit JsonVal)
  folder_path : Option String

/-- `media_type.value.capitalize()` used in the success message. -/
def capitalizedValue : MediaType → String
  | .image => "Image"
  | .video => "Video"

/-- ASCII lowering of one character, as Python `str.lower` does on the
ASCII range relevant to file extensions. -/
def pyCharLower (c : Char) : Char :=
  if 'A' ≤ c ∧ c ≤ 'Z' then Char.ofNat (c.toNat + 32) else c

/-- Embedding of Python `str.lower()`. -/
def pyLower (s : String) : String :=
  String.mk (s.toList.map pyCharLower)

/-- Embedding of Python `str.endswith(suffix)`. -/
def pyEndsWith (s suffix : String) : Bool :=
  List.isSuffixOf suffix.toList s.toList

/--
The metadata-parsing step of `upload_asset` (gallery.py lines 387-405):
absent field passes through, `json.loads` failure raises
`HTTPException(400)`, a truthy parsed dict is normalised by the
sanitisation loop, a truthy non-dict raises `AttributeError` at
`.items()`, and a falsy value skips the loop unchanged.
-/
def parseUploadMetadata : Option (Except Unit JsonVal) → Except PyExn (Option JsonVal)
  | none => .ok none
  | some (.error _) => .error (.http 400 "Invalid JSON format for metadata")
  | some (.ok v) =>
    if v.pyTruthy then
      match v with
      | .obj kvs => .ok (some (.obj (sanitizeMetadata kvs)))
      | _ => .error (.err "AttributeError: object has no attribute items")
    else
      .ok (some v)

/--
The `try`-block body of `upload_asset` (gallery.py lines 373-441).
Returns the outcome together with two call markers: whether the blob
upload was invoked and whether the Cosmos metadata create was invoked.
-/
def uploadBody (w : UploadWorld) (req : UploadRequest) :
    Except PyExn AssetUploadResponse × Bool × Bool :=
  let valid_types := validExtensions req.media_type
  let filename := pyLower req.filename
  if !(valid_types.any fun ext => pyEndsWith filename ext) then
    (.error (.http 400 ("Invalid file type. Must be one of " ++
      String.intercalate ", " valid_types)), false, false)
  else
    match parseUploadMetadata req.metadata with
    | .error e => (.error e, false, false)
    | .ok _ =>
      match w.blobUpload with
      | .error msg => (.error (.err msg), true, false)
      | .ok result =>
        -- `cosmos_service` is always truthy here: the dependency already
        -- succeeded.  A failure of `create_asset_metadata` is caught and
        -- logged inside the handler; the response is unchanged.
        (.ok { success := true
               message := capitalizedValue req.media_type ++ " uploaded successfully"
               result := result }, true, true)

/-- Call markers and response of one `POST /upload` request. -/
structure UploadOutcome where
  response : Response AssetUploadResponse
  blobUploadCalled : Bool
  cosmosCreateCalled : Bool
deriving DecidableEq, Repr

/--
`upload_asset` as served: FastAPI first resolves the
`Depends(get_cosmos_service)` dependency (an exception there aborts the
request), then runs the body; the handler's only handler is
`except Exception`, which catches even the `HTTPException`s raised in the
body and re-raises `HTTPException(500, str(e))` (gallery.py lines 442-449).
-/
def upload_asset (w : UploadWorld) (req : UploadRequest) : UploadOutcome :=
  match get_cosmos_service w.settings w.cosmosInitFailure with
  | .error e =>
    { response := e.toResponse, blobUploadCalled := false, cosmosCreateCalled := false }
  | .ok _ =>
    match uploadBody w req with
    | (.ok resp, b, c) =>
      { response := .ok resp, blobUploadCalled := b, cosmosCreateCalled := c }
    | (.error e, b, c) =>
      { response := .httpError 500 e.str, blobUploadCalled := b, cosmosCreateCalled := c }

/-! ## The delete endpoint (`DELETE /delete`, gallery.py lines 452-518) -/

/-- Python `str.split(sep)` for a one-character separator, on the
character list of the string.  `"".split(sep)` is `[""]`, and empty
segments between adjacent separators are kept, exactly as in Python. -/
def pySplit (sep : Char) : List Char → List (List Char)
  | [] => [[]]
  | c :: cs =>
    if c = sep then [] :: pySplit sep cs
    else
      match pySplit sep cs with
      | [] => [[c]]
      | g :: gs => (c :: g) :: gs

/-- `s.split(sep)[0]`. -/
def pySplitFirst (sep : Char) (s : List Char) : List Char :=
  (pySplit sep s).headD []

/-- `s.split(sep)[-1]`. -/
def pySplitLast (sep : Char) (s : List Char) : List Char :=
  (pySplit sep s).getLastD []

/-- `blob_name.split(".")[0].split("/")[-1]` (gallery.py line 486): the
identifier handed to `delete_asset_metadata`. -/
def assetIdOf (blob_name : String) : String :=
  String.mk (pySplitLast '/' (pySplitFirst '.' blob_name.toList))

/-- The media-type string handed to `delete_asset_metadata`
(gallery.py lines 487-491). -/
def deleteMediaTypeStr (s : Settings) (container_name : String) : String :=
  if container_name = s.imageContainer then "image" else "video"

/-- The query parameters of a `DELETE /delete` request. -/
structure DeleteRequest where
  blob_name : String
  media_type : Option MediaType
  container : Option String
deriving DecidableEq, Repr

/-- The external outcomes a single `DELETE /delete` request can observe.
`blobDelete` is the boolean result (or an exception) of
`azure_storage_service.delete_asset`; `cosmosDeleteFailure` models whether
`delete_asset_metadata` raises. -/
structure DeleteWorld where
  settings : Settings
  cosmosInitFailure : Option String
  cosmosDeleteFailure : Option String
  blobDelete : Except String Bool
deriving Repr

/-- The successful payload of `DELETE /delete`. -/
structure AssetDeleteResponse where
  success : Bool
  message : String
  blob_name : String
  container : String
deriving DecidableEq, Repr

/-- Container fallback when `container` is absent or falsy
(gallery.py lines 473-483): missing `media_type` raises
`HTTPException(400)`, otherwise the configured container for that type. -/
def containerFromMediaType (s : Settings) : Option MediaType → Except PyExn String
  | none => .error (.http 400 "Either media_type or container must be specified")
  | some .image => .ok s.imageContainer
  | some .video => .ok s.videoContainer

/-- `container_name` resolution (gallery.py lines 471-483); an explicitly
passed empty container string is falsy in Python and falls back. -/
def resolveContainer (s : Settings) (req : DeleteRequest) : Except PyExn String :=
  match req.container with
  | some c => if c.isEmpty then containerFromMediaType s req.media_type else .ok c
  | none => containerFromMediaType s req.media_type

/-- Call record and response of one `DELETE /delete` request.
`cosmosDeleteArgs` is the `(asset_id, media_type_str)` pair passed to
`delete_asset_metadata`, when that call was made; `cosmosRecordDeleted`
says whether the metadata record (had it existed) was removed. -/
structure DeleteOutcome where
  response : Response AssetDeleteResponse
  cosmosDeleteArgs : Option (String × String)
  cosmosRecordDeleted : Bool
deriving DecidableEq, Repr

/-- The `try`-block body of `delete_asset` (gallery.py lines 470-514):
resolve the container, compute the Cosmos identifier, attempt the Cosmos
delete first (failures logged, never raised), then the blob delete; a
`False` blob result raises `HTTPException(404)`. -/
def deleteBody (w : DeleteWorld) (req : DeleteRequest) :
    Except PyExn AssetDeleteResponse × Option (String × String) × Bool :=
  match resolveContainer w.settings req with
  | .error e => (.error e, none, false)
  | .ok container_name =>
    let asset_id := assetIdOf req.blob_name
    let media_type_str := deleteMediaTypeStr w.settings container_name
    let args := some (asset_id, media_type_str)
    let deleted := w.cosmosDeleteFailure.isNone
    match w.blobDelete with
    | .error msg => (.error (.err msg), args, deleted)
    | .ok false => (.error (.http 404 "Asset not found"), args, deleted)
    | .ok true =>
      (.ok { success := true
             message := "Asset deleted successfully"
             blob_name := req.blob_name
             container := container_name }, args, deleted)

/--
`delete_asset` as served: the `Depends(get_cosmos_service)` dependency is
resolved first (an exception there aborts the request); the handler
re-raises `HTTPException`s unchanged (`except HTTPException: raise`,
gallery.py line 515) and converts any other exception into a 500.
-/
def delete_asset (w : DeleteWorld) (req : DeleteRequest) : DeleteOutcome :=
  match get_cosmos_service w.settings w.cosmosInitFailure with
  | .error e =>
    { response := e.toResponse, cosmosDeleteArgs := none, cosmosRecordDeleted := false }
  | .ok _ =>
    match deleteBody w req with
    | (.ok resp, args, del) =>
      { response := .ok resp, cosmosDeleteArgs := args, cosmosRecordDeleted := del }
    | (.error (.http s d), args, del) =>
      { response := .httpError s d, cosmosDeleteArgs := args, cosmosRecordDeleted := del }
    | (.error (.err m), args, del) =>
      { response := .httpError 500 m, cosmosDeleteArgs := args, cosmosRecordDeleted := del }

/-! ## The raw content endpoint (`GET /asset/...`, gallery.py lines 529-559) -/

/-- The external outcome a `GET /asset/{media_type}/{blob_name}` request
observes: the `(bytes, content_type)` pair returned by
`get_asset_content`, or an exception.  There is no metadata-store
dependency on this path at all. -/
structure AssetContentWorld where
  settings : Settings
  blobContent : String → String → Except String (List Nat × String)

/--
`get_asset_content` as served (gallery.py lines 529-559): the container is
chosen from the declared media type, empty content is falsy and raises
`HTTPException(404)`, but the handler's only clause is `except Exception`,
which also catches that 404 and converts it to a 500 with `str(e)` as
detail.
-/
def get_asset_content_endpoint (w : AssetContentWorld) (media_type : MediaType)
    (blob_name : String) : Response (List Nat × String) :=
  let container_name :=
    if media_type = MediaType.image then w.settings.imageContainer
    else w.settings.videoContainer
  match w.blobContent blob_name container_name with
  | .error e => .httpError 500 e
  | .ok (content, content_type) =>
    if content.isEmpty then
      .httpError 500 (PyExn.str (.http 404 ("Asset not found: " ++ blob_name)))
    else
      .ok (content, content_type)

/-! ## Python dict semantics for the metadata maps -/

/-- `d[k] = v` on a Python dict kept as an insertion-ordered association
list: an existing key keeps its position and gets the new value, a new key
is appended. -/
def pyDictInsert (m : List (String × String)) (k v : String) : List (String × String) :=
  match m with
  | [] => [(k, v)]
  | kv :: rest => if kv.1 = k then (k, v) :: rest else kv :: pyDictInsert rest k v

/-- `d.update(kvs)` / `{**d, **kvs}`: insert the entries in order, later
occurrences overriding earlier ones. -/
def pyDictExtend (m : List (String × String)) (kvs : List (String × String)) :
    List (String × String) :=
  kvs.foldl (fun acc kv => pyDictInsert acc kv.1 kv.2) m

/-- `d.get(k)` on the association list (keys are unique by construction,
so the first match is the binding). -/
def pyDictGet : List (String × String) → String → Option String
  | [], _ => none
  | kv :: rest, k => if kv.1 = k then some kv.2 else pyDictGet rest k

/-! ## The listing endpoints (gallery.py lines 70-355) -/

/-- A Cosmos DB asset record as consumed by the listing endpoints.
Dynamic-dict fields that the code reads with `metadata.get(key, default)`
are optional; `str()`-converted numeric fields (`duration`, `fps`) are
modelled by their converted strings. -/
structure AssetRecord where
  id : String
  blob_name : String
  container : String
  size : Nat
  media_type : String
  content_type : Option String
  created_at : String
  updated_at : String
  prompt : Option String
  model : Option String
  summary : Option String
  description : Option String
  products : Option String
  tags : Option (List String)
  quality : Option String
  background : Option String
  output_format : Option String
  has_transparency : Option Bool
  generation_id : Option String
  duration : Option String
  resolution : Option String
  fps : Option String
  custom_metadata : Option (List (String × String))
  folder_path : Option String
deriving DecidableEq, Repr

/-- `str()` of a Python bool. -/
def pyStrBool : Bool → String
  | true => "True"
  | false => "False"

/-- The built-in part of the metadata dict literal of `/images`
(gallery.py lines 123-137), in source order. -/
def builtinImageMetadata (r : AssetRecord) : List (String × String) :=
  [("prompt", r.prompt.getD ""),
   ("model", r.model.getD ""),
   ("summary", r.summary.getD ""),
   ("description", r.description.getD ""),
   ("products", r.products.getD ""),
   ("tags", String.intercalate "," (r.tags.getD [])),
   ("quality", r.quality.getD ""),
   ("background", r.background.getD ""),
   ("output_format", r.output_format.getD ""),
   ("has_transparency", pyStrBool (r.has_transparency.getD false)),
   ("generation_id", r.generation_id.getD "")]

/-- The full metadata dict of `/images`: the literal ends with
`**metadata.get("custom_metadata", {})`, merged last. -/
def imageItemMetadata (r : AssetRecord) : List (String × String) :=
  pyDictExtend (builtinImageMetadata r) (r.custom_metadata.getD [])

/-- The built-in part of the metadata dict literal of `/videos`
(gallery.py lines 216-227), in source order. -/
def builtinVideoMetadata (r : AssetRecord) : List (String × String) :=
  [("prompt", r.prompt.getD ""),
   ("model", r.model.getD ""),
   ("summary", r.summary.getD ""),
   ("description", r.description.getD ""),
   ("products", r.products.getD ""),
   ("tags", String.intercalate "," (r.tags.getD [])),
   ("generation_id", r.generation_id.getD ""),
   ("duration", r.duration.getD ""),
   ("resolution", r.resolution.getD ""),
   ("fps", r.fps.getD "")]

/-- The full metadata dict of `/videos`: custom metadata merged last. -/
def videoItemMetadata (r : AssetRecord) : List (String × String) :=
  pyDictExtend (builtinVideoMetadata r) (r.custom_metadata.getD [])

/-- The common part of `item_metadata` of `/` (gallery.py lines 299-307). -/
def commonItemMetadata (r : AssetRecord) : List (String × String) :=
  [("prompt", r.prompt.getD ""),
   ("model", r.model.getD ""),
   ("summary", r.summary.getD ""),
   ("description", r.description.getD ""),
   ("products", r.products.getD ""),
   ("tags", String.intercalate "," (r.tags.getD [])),
   ("generation_id", r.generation_id.getD "")]

/-- `item_metadata` of `/` (gallery.py lines 299-325): common keys, then a
media-type-specific `update`, then `update(custom_metadata)` last. -/
def itemsEndpointMetadata (r : AssetRecord) : List (String × String) :=
  let base := commonItemMetadata r
  let withSpecific :=
    if r.media_type = "image" then
      pyDictExtend base
        [("quality", r.quality.getD ""),
         ("background", r.background.getD ""),
         ("output_format", r.output_format.getD ""),
         ("has_transparency", pyStrBool (r.has_transparency.getD false))]
    else
      pyDictExtend base
        [("duration", r.duration.getD ""),
         ("resolution", r.resolution.getD ""),
         ("fps", r.fps.getD "")]
  pyDictExtend withSpecific (r.custom_metadata.getD [])

/-- The `GalleryItem` response model, with the metadata map as an
insertion-ordered association list. -/
structure GalleryItem where
  id : String
  name : String
  media_type : String
  url : String
  container : String
  size : Nat
  content_type : Option String
  creation_time : String
  last_modified : String
  metadata : List (String × String)
  folder_path : String
deriving DecidableEq, Repr

/-- The type of the embedded `generate_blob_sas_url` SDK call:
blob name, container name, expiry hours to a URL, or an exception. -/
def SasGen : Type := String → String → Nat → Except String String

/-- The projection loop of `/images` (gallery.py lines 103-142): for each
record, in order, mint a SAS URL with `expiry_hours=24` and build the
item; the first exception propagates and discards the page. -/
def projectImages (gen : SasGen) : List AssetRecord → Except String (List GalleryItem)
  | [] => .ok []
  | r :: rs =>
    match gen r.blob_name r.container 24 with
    | .error e => .error e
    | .ok url =>
      match projectImages gen rs with
      | .error e => .error e
      | .ok items =>
        .ok ({ id := r.id
               name := r.blob_name
               media_type := "image"
               url := url
               container := r.container
               size := r.size
               content_type := r.content_type
               creation_time := r.created_at
               last_modified := r.updated_at
               metadata := imageItemMetadata r
               folder_path := r.folder_path.getD "" } :: items)

/-- The projection loop of `/` (gallery.py lines 289-341): SAS URL with
`expiry_hours=24`, media-type-dependent metadata, and `MediaType(...)`
raising `ValueError` on a media type that is neither image nor video. -/
def projectGalleryItems (gen : SasGen) : List AssetRecord → Except String (List GalleryItem)
  | [] => .ok []
  | r :: rs =>
    match gen r.blob_name r.container 24 with
    | .error e => .error e
    | .ok url =>
      if r.media_type = "image" || r.media_type = "video" then
        match projectGalleryItems gen rs with
        | .error e => .error e
        | .ok items =>
          .ok ({ id := r.id
                 name := r.blob_name
                 media_type := r.media_type
                 url := url
                 container := r.container
                 size := r.size
                 content_type := r.content_type
                 creation_time := r.created_at
                 last_modified := r.updated_at
                 metadata := itemsEndpointMetadata r
                 folder_path := r.folder_path.getD "" } :: items)
      else
        .error ("'" ++ r.media_type ++ "' is not a valid MediaType")

/-- The `GalleryResponse` envelope of the listing endpoints. -/
structure GalleryResponse where
  success : Bool
  message : String
  total : Nat
  limit : Nat
  offset : Nat
  items : List GalleryItem
deriving DecidableEq, Repr

/-- The `/images` handler body after the Cosmos query returned
`(records, total)` (gallery.py lines 103-160): any exception from the
projection loop is caught and surfaced as a single `HTTPException(500)`
for the whole page. -/
def get_gallery_images (gen : SasGen) (records : List AssetRecord) (total limit offset : Nat) :
    Response GalleryResponse :=
  match projectImages gen records with
  | .error e => .httpError 500 ("Failed to retrieve images: " ++ e)
  | .ok items =>
    .ok { success := true
          message := "Retrieved " ++ toString items.length ++ " images from Cosmos DB"
          total := total
          limit := limit
          offset := offset
          items := items }

/-- The `/` handler body after the Cosmos query returned
`(records, total)` (gallery.py lines 289-355): any exception from the
projection loop is caught and surfaced as a single `HTTPException(500)`
for the whole page. -/
def get_gallery_items (gen : SasGen) (records : List AssetRecord) (total limit offset : Nat) :
    Response GalleryResponse :=
  match projectGalleryItems gen records with
  | .error e => .httpError 500 e
  | .ok items =>
    .ok { success := true
          message := "Retrieved " ++ toString items.length ++ " items from Cosmos DB"
          total := total
          limit := limit
          offset := offset
          items := items }

/-! ## The SAS-token endpoint (`GET /sas-tokens`, gallery.py lines 562-593) -/

/-- One `generate_container_sas` SDK call, as issued by the endpoint:
the account, the container, whether the permission set is
`ContainerSasPermissions(read=True)`, and the expiry offset in hours from
the time of issuance. -/
structure SasCall where
  account_name : String
  container_name : String
  read_only : Bool
  expiry_hours : Nat
deriving DecidableEq, Repr

/-- The `SasTokenResponse` payload, with the expiry kept as the hour
offset from issuance (`datetime.now(timezone.utc) + timedelta(hours=1)`). -/
structure SasTokenResponse where
  success : Bool
  message : String
  video_sas_token : String
  image_sas_token : String
  video_container_url : String
  image_container_url : String
  expiry_hours_from_now : Nat
deriving DecidableEq, Repr

/-- `get_sas_tokens` (gallery.py lines 562-593), parametrised by the
`generate_container_sas` SDK function; returns the response together with
the trace of SDK calls it issued, in order. -/
def get_sas_tokens (s : Settings) (genSas : SasCall → String) :
    SasTokenResponse × List SasCall :=
  let videoCall : SasCall :=
    { account_name := s.storageAccountName
      container_name := s.videoContainer
      read_only := true
      expiry_hours := 1 }
  let imageCall : SasCall :=
    { account_name := s.storageAccountName
      container_name := s.imageContainer
      read_only := true
      expiry_hours := 1 }
  ({ success := true
     message := "SAS tokens generated successfully"
     video_sas_token := genSas videoCall
     image_sas_token := genSas imageCall
     video_container_url :=
       "https://" ++ s.storageAccountName ++ ".blob.core.windows.net/" ++ s.videoContainer
     image_container_url :=
       "https://" ++ s.storageAccountName ++ ".blob.core.windows.net/" ++ s.imageContainer
     expiry_hours_from_now := 1 },
   [videoCall, imageCall])

/-! ## The health endpoint (`GET /health`, gallery.py lines 596-683) -/

/-- The external outcomes a `GET /health` request observes:
whether `_ensure_container_exists` succeeds for both containers, the
result of `cosmos_service.health_check()` (its `status` string, or an
exception), and the AI-client import: raising, or yielding the
truthiness of the `sora`/`dalle`/`llm` client objects. -/
structure HealthWorld where
  settings : Settings
  cosmosInitFailure : Option String
  blobContainersOk : Except String Unit
  cosmosHealthCheck : Except String String
  aiImport : Except String (Bool × Bool × Bool)

/-- The per-service statuses and the aggregate reported by `/health`. -/
structure HealthStatus where
  blob_status : String
  cosmos_status : String
  ai_status : String
  overall_status : String
deriving DecidableEq, Repr

/--
The body of `health_check` (gallery.py lines 606-683): `overall_status`
starts `"healthy"`; a blob-storage failure, a non-healthy or raising
Cosmos health check, or a raising AI import each set it to `"degraded"`.
When the AI import succeeds, the AI status is `"healthy"` exactly when at
least one client is truthy — and `overall_status` is left untouched on
that branch even when the status is `"unhealthy"`.
`cosmos_service` is never `None` here: the body only runs after the
`Depends(get_cosmos_service)` dependency has succeeded.
-/
def healthCheckBody (w : HealthWorld) : HealthStatus :=
  let blobStatus :=
    match w.blobContainersOk with
    | .ok _ => "healthy"
    | .error _ => "unhealthy"
  let overall1 :=
    match w.blobContainersOk with
    | .ok _ => "healthy"
    | .error _ => "degraded"
  let cosmosStatus :=
    match w.cosmosHealthCheck with
    | .ok st => st
    | .error _ => "unhealthy"
  let overall2 :=
    match w.cosmosHealthCheck with
    | .ok st => if st ≠ "healthy" then "degraded" else overall1
    | .error _ => "degraded"
  let aiStatus :=
    match w.aiImport with
    | .ok avail => if avail.1 || avail.2.1 || avail.2.2 then "healthy" else "unhealthy"
    | .error _ => "unhealthy"
  let overall3 :=
    match w.aiImport with
    | .ok _ => overall2
    | .error _ => "degraded"
  { blob_status := blobStatus
    cosmos_status := cosmosStatus
    ai_status := aiStatus
    overall_status := overall3 }

/-- `health_check` as served: the `Depends(get_cosmos_service)` dependency
is resolved first, so an unconfigured metadata store aborts the request
with its 503 before any status is assembled. -/
def health_check (w : HealthWorld) : Response HealthStatus :=
  match get_cosmos_service w.settings w.cosmosInitFailure with
  | .error e => e.toResponse
  | .ok _ => .ok (healthCheckBody w)

/-! ## Claim-side string functions (for the refinement claim about the
Cosmos delete identifier) -/

/-- From the claim's words: the substring of a string up to (excluding)
the first occurrence of `sep`; the whole string when `sep` is absent. -/
def prefixBeforeFirst (sep : Char) : List Char → List Char
  | [] => []
  | c :: cs => if c = sep then [] else c :: prefixBeforeFirst sep cs

/-- From the claim's words: the last `sep`-separated segment of a string,
i.e. the suffix after the last occurrence of `sep`; the whole string when
`sep` is absent. -/
def lastSegmentAfter (sep : Char) (s : List Char) : List Char :=
  (prefixBeforeFirst sep s.reverse).reverse

/-- The claim's description of the identifier passed to the metadata
store on delete: the last slash-separated segment of the substring of
`blob_name` before its first `'.'`. -/
def claimAssetId (blob_name : String) : String :=
  String.mk (lastSegmentAfter '/' (prefixBeforeFirst '.' blob_name.toList))

/-! ## Concrete instances used as counterexamples and witnesses -/

/-- A settings object with the Cosmos metadata store fully configured. -/
def configuredSettings : Settings :=
  { cosmosEndpoint := some "https://cosmos.example"
    cosmosKey := some "key123"
    useManagedIdentity := false
    imageContainer := "images"
    videoContainer := "videos"
    storageAccountName := "acct" }

/-- The same settings with `AZURE_COSMOS_DB_ENDPOINT` unset. -/
def unconfiguredSettings : Settings :=
  { configuredSettings with cosmosEndpoint := none }

/-- A blob-upload result for a plain-text file. -/
def txtBlobResult : BlobUploadResult :=
  { blob_name := "doc.txt", container := "images", url := "https://blob/doc.txt",
    original_filename := "doc.txt", size := 7, content_type := "text/plain",
    folder_path := "" }

/-- A blob-upload result for a PNG file. -/
def pngBlobResult : BlobUploadResult :=
  { blob_name := "pic.png", container := "images", url := "https://blob/pic.png",
    original_filename := "pic.png", size := 9, content_type := "image/png",
    folder_path := "" }

/-- An upload world with everything configured and both stores succeeding. -/
def uploadWorldOk : UploadWorld :=
  { settings := configuredSettings, cosmosInitFailure := none,
    blobUpload := .ok txtBlobResult, cosmosCreateFailure := none }

/-- An upload request for a file whose extension is not allowed for
images. -/
def badExtensionReq : UploadRequest :=
  { filename := "doc.txt", media_type := .image, metadata := none, folder_path := none }

/-- An upload request whose metadata form field is not valid JSON. -/
def badJsonReq : UploadRequest :=
  { filename := "pic.png", media_type := .image, metadata := some (.error ()),
    folder_path := none }

/-- A valid image-upload request with no metadata. -/
def plainPngReq : UploadRequest :=
  { filename := "pic.png", media_type := .image, metadata := none, folder_path := none }

/-- An upload world whose metadata store is unconfigured but whose blob
store would succeed. -/
def uploadWorldNoCosmos : UploadWorld :=
  { settings := unconfiguredSettings, cosmosInitFailure := none,
    blobUpload := .ok pngBlobResult, cosmosCreateFailure := none }

/-- A delete world whose metadata store is unconfigured but whose blob
store would succeed. -/
def deleteWorldNoCosmos : DeleteWorld :=
  { settings := unconfiguredSettings, cosmosInitFailure := none,
    cosmosDeleteFailure := none, blobDelete := .ok true }

/-- A delete request identified by media type. -/
def deleteReqImage : DeleteRequest :=
  { blob_name := "pic.png", media_type := some .image, container := none }

/-- A content world whose metadata store is unconfigured and whose blob
store returns three bytes of PNG data. -/
def contentWorldNoCosmos : AssetContentWorld :=
  { settings := unconfiguredSettings,
    blobContent := fun _ _ => .ok ([137, 80, 78], "image/png") }

/-- A record with every optional Cosmos field absent. -/
def emptyRecord : AssetRecord :=
  { id := "a1", blob_name := "a1.png", container := "images", size := 10,
    media_type := "image", content_type := none, created_at := "2024-01-01",
    updated_at := "2024-01-02", prompt := none, model := none, summary := none,
    description := none, products := none, tags := none, quality := none,
    background := none, output_format := none, has_transparency := none,
    generation_id := none, duration := none, resolution := none, fps := none,
    custom_metadata := none, folder_path := none }

/-- First record of the failing page. -/
def recA : AssetRecord := { emptyRecord with id := "a", blob_name := "a.png" }

/-- Second record of the failing page; SAS generation fails for it. -/
def recB : AssetRecord := { emptyRecord with id := "b", blob_name := "b.png" }

/-- A SAS generator that fails exactly on `recB`'s blob. -/
def genFailB : SasGen := fun b _ _ =>
  if b = "b.png" then .error "boom" else .ok ("https://sas/" ++ b)

/-- A total SAS generator recording its expiry argument in the URL. -/
def genEcho : SasGen := fun b _ e => .ok (b ++ ("?h=" ++ toString e))

/-- A SAS generator defined only at a 24-hour expiry; it agrees with
`genEcho` there. -/
def genAt24 : SasGen := fun b _ e =>
  if e = 24 then .ok (b ++ "?h=24") else .error "unexpected expiry"

/-- A record carrying custom metadata that collides with a built-in key. -/
def overrideRecord : AssetRecord :=
  { emptyRecord with prompt := some "builtin prompt",
                     custom_metadata := some [("prompt", "custom prompt"), ("extra", "1")] }

/-- A health world where both stores are healthy, the AI import succeeds,
and no AI client is configured. -/
def healthWorldNoAi : HealthWorld :=
  { settings := configuredSettings, cosmosInitFailure := none,
    blobContainersOk := .ok (), cosmosHealthCheck := .ok "healthy",
    aiImport := .ok (false, false, false) }

/-- An upload world where the metadata create raises but the blob upload
succeeds. -/
def uploadWorldCosmosFails : UploadWorld :=
  { settings := configuredSettings, cosmosInitFailure := none,
    blobUpload := .ok pngBlobResult, cosmosCreateFailure := some "cosmos down" }

/-- A delete world where the metadata delete raises but the blob delete
succeeds. -/
def deleteWorldCosmosFails : DeleteWorld :=
  { settings := configuredSettings, cosmosInitFailure := none,
    cosmosDeleteFailure := some "cosmos down", blobDelete := .ok true }

/-- A delete world where the metadata delete succeeds and the blob is
absent. -/
def deleteWorldBlobMissing : DeleteWorld :=
  { settings := configuredSettings, cosmosInitFailure := none,
    cosmosDeleteFailure := none, blobDelete := .ok false }

/-- A metadata dict exercising all three sanitisation cases. -/
def sanitizeSample : List (String × JsonVal) :=
  [("a", JsonVal.null), ("b", JsonVal.num 3), ("c", JsonVal.obj [("x", JsonVal.num 1)])]

/-! ## Supporting lemmas: Python `split` versus the claim's description -/

theorem pySplit_ne_nil (sep : Char) (s : List Char) : pySplit sep s ≠ [] := by
  cases s with
  | nil => simp [pySplit]
  | cons c cs =>
    simp only [pySplit]
    split
    · simp
    · split <;> simp

theorem pySplit_of_not_mem (sep : Char) {s : List Char} (h : sep ∉ s) :
    pySplit sep s = [s] := by
  induction s with
  | nil => rfl
  | cons c cs ih =>
    simp only [List.mem_cons, not_or] at h
    obtain ⟨h1, h2⟩ := h
    have hc : ¬ c = sep := fun hh => h1 hh.symm
    simp [pySplit, hc, ih h2]

theorem two_le_length_pySplit_of_mem (sep : Char) {s : List Char} (h : sep ∈ s) :
    2 ≤ (pySplit sep s).length := by
  induction s with
  | nil => cases h
  | cons c cs ih =>
    by_cases hc : c = sep
    · have hne := pySplit_ne_nil sep cs
      have hpos : 0 < (pySplit sep cs).length := List.length_pos.mpr hne
      simp only [pySplit, if_pos hc, List.length_cons]
      omega
    · have hmem : sep ∈ cs := by
        cases h with
        | head => exact absurd rfl hc
        | tail _ h => exact h
      have h2 := ih hmem
      obtain ⟨g, gs, hgs⟩ := List.exists_cons_of_ne_nil (pySplit_ne_nil sep cs)
      rw [hgs] at h2
      simp only [List.length_cons] at h2
      simp only [pySplit, if_neg hc, hgs, List.length_cons]
      omega

theorem prefixBeforeFirst_append_of_mem (sep : Char) {xs : List Char} (ys : List Char)
    (h : sep ∈ xs) : prefixBeforeFirst sep (xs ++ ys) = prefixBeforeFirst sep xs := by
  induction xs with
  | nil => cases h
  | cons x xs ih =>
    by_cases hx : x = sep
    · simp [prefixBeforeFirst, hx]
    · have hmem : sep ∈ xs := by
        cases h with
        | head => exact absurd rfl hx
        | tail _ h => exact h
      simp [prefixBeforeFirst, hx, ih hmem]

theorem prefixBeforeFirst_of_not_mem (sep : Char) {xs : List Char} (h : sep ∉ xs) :
    prefixBeforeFirst sep xs = xs := by
  induction xs with
  | nil => rfl
  | cons x xs ih =>
    simp only [List.mem_cons, not_or] at h
    obtain ⟨h1, h2⟩ := h
    have hx : ¬ x = sep := fun hh => h1 hh.symm
    simp [prefixBeforeFirst, hx, ih h2]

theorem prefixBeforeFirst_append_sep (sep : Char) (xs : List Char) :
    prefixBeforeFirst sep (xs ++ [sep]) = prefixBeforeFirst sep xs := by
  induction xs with
  | nil => simp [prefixBeforeFirst]
  | cons x xs ih =>
    by_cases hx : x = sep
    · simp [prefixBeforeFirst, hx]
    · simp [prefixBeforeFirst, hx, ih]

theorem pySplit_headD_eq (sep : Char) (s : List Char) :
    (pySplit sep s).headD [] = prefixBeforeFirst sep s := by
  induction s with
  | nil => rfl
  | cons c cs ih =>
    by_cases hc : c = sep
    · simp [pySplit, prefixBeforeFirst, hc]
    · obtain ⟨g, gs, hgs⟩ := List.exists_cons_of_ne_nil (pySplit_ne_nil sep cs)
      rw [hgs] at ih
      simp only [List.headD_cons] at ih
      simp [pySplit, prefixBeforeFirst, hc, hgs, ih]

theorem pySplit_getLastD_eq (sep : Char) (s : List Char) :
    (pySplit sep s).getLastD [] = lastSegmentAfter sep s := by
  induction s with
  | nil => rfl
  | cons c cs ih =>
    by_cases hc : c = sep
    · subst hc
      have hsplit : pySplit c (c :: cs) = [] :: pySplit c cs := by
        simp [pySplit]
      rw [hsplit, List.getLastD_cons, ih]
      simp [lastSegmentAfter, List.reverse_cons, prefixBeforeFirst_append_sep]
    · obtain ⟨g, gs, hgs⟩ := List.exists_cons_of_ne_nil (pySplit_ne_nil sep cs)
      have hsplit : pySplit sep (c :: cs) = (c :: g) :: gs := by
        simp [pySplit, hc, hgs]
      rw [hsplit, List.getLastD_cons]
      cases gs with
      | nil =>
        have hnm : sep ∉ cs := by
          intro hmem
          have hlen := two_le_length_pySplit_of_mem sep hmem
          rw [hgs] at hlen
          simp at hlen
        have hg : g = cs := by
          have hone := pySplit_of_not_mem sep hnm
          have heq := hgs.symm.trans hone
          injection heq
        have hrev : sep ∉ (c :: cs).reverse := by
          simp only [List.mem_reverse, List.mem_cons, not_or]
          exact ⟨fun hh => hc hh.symm, hnm⟩
        rw [List.getLastD_nil, hg]
        unfold lastSegmentAfter
        rw [prefixBeforeFirst_of_not_mem sep hrev, List.reverse_reverse]
      | cons g2 gs2 =>
        have hmem : sep ∈ cs := by
          by_contra hnm
          rw [pySplit_of_not_mem sep hnm] at hgs
          simp at hgs
        rw [List.getLastD_cons]
        have hstep : gs2.getLastD g2 = lastSegmentAfter sep cs := by
          rw [← ih, hgs, List.getLastD_cons, List.getLastD_cons]
        rw [hstep]
        have hmemrev : sep ∈ cs.reverse := List.mem_reverse.mpr hmem
        simp [lastSegmentAfter, List.reverse_cons,
          prefixBeforeFirst_append_of_mem sep [c] hmemrev]

theorem assetIdOf_eq_claimAssetId (name : String) : assetIdOf name = claimAssetId name := by
  unfold assetIdOf claimAssetId pySplitLast pySplitFirst
  rw [pySplit_headD_eq, pySplit_getLastD_eq]

/-! ## Supporting lemmas: Python dict insertion and lookup -/

theorem pyDictGet_insert_self (m : List (String × String)) (k v : String) :
    pyDictGet (pyDictInsert m k v) k = some v := by
  induction m with
  | nil => simp [pyDictInsert, pyDictGet]
  | cons kv rest ih =>
    by_cases h : kv.1 = k
    · simp [pyDictInsert, h, pyDictGet]
    · simp [pyDictInsert, h, pyDictGet, ih]

theorem pyDictGet_insert_other (m : List (String × String)) (k v k' : String)
    (h : k' ≠ k) : pyDictGet (pyDictInsert m k v) k' = pyDictGet m k' := by
  induction m with
  | nil =>
    have : ¬ k = k' := fun hh => h hh.symm
    simp [pyDictInsert, pyDictGet, this]
  | cons kv rest ih =>
    by_cases h1 : kv.1 = k
    · have h2 : ¬ k = k' := fun hh => h hh.symm
      have h3 : ¬ kv.1 = k' := fun hh => h2 (h1 ▸ hh)
      simp [pyDictInsert, h1, pyDictGet, h2, h3]
    · by_cases h2 : kv.1 = k'
      · simp [pyDictInsert, h1, pyDictGet, h2, h]
      · simp [pyDictInsert, h1, pyDictGet, h2, ih]

theorem pyDictGet_extend_not_mem (kvs : List (String × String)) (m : List (String × String))
    (k : String) (h : ∀ kv ∈ kvs, kv.1 ≠ k) :
    pyDictGet (pyDictExtend m kvs) k = pyDictGet m k := by
  induction kvs generalizing m with
  | nil => rfl
  | cons kv rest ih =>
    have hstep : pyDictExtend m (kv :: rest) = pyDictExtend (pyDictInsert m kv.1 kv.2) rest :=
      rfl
    rw [hstep, ih (pyDictInsert m kv.1 kv.2) (fun kw hkw => h kw (List.mem_cons_of_mem kv hkw)),
      pyDictGet_insert_other m kv.1 kv.2 k
        (fun hh => h kv (List.mem_cons_self kv rest) hh.symm)]

theorem pyDictGet_extend_of_get (kvs : List (String × String)) (m : List (String × String))
    (k v : String) (hnd : (kvs.map Prod.fst).Nodup)
    (h : pyDictGet kvs k = some v) :
    pyDictGet (pyDictExtend m kvs) k = some v := by
  induction kvs generalizing m with
  | nil => simp [pyDictGet] at h
  | cons kv rest ih =>
    rw [List.map_cons, List.nodup_cons] at hnd
    obtain ⟨hk, hnd⟩ := hnd
    have hstep : pyDictExtend m (kv :: rest) = pyDictExtend (pyDictInsert m kv.1 kv.2) rest :=
      rfl
    rw [hstep]
    by_cases hkk : kv.1 = k
    · rw [pyDictGet, if_pos hkk] at h
      have hrest : ∀ kw ∈ rest, kw.1 ≠ k := by
        intro kw hkw hkeq
        exact hk (hkk ▸ hkeq ▸ List.mem_map_of_mem Prod.fst hkw)
      rw [pyDictGet_extend_not_mem rest (pyDictInsert m kv.1 kv.2) k hrest, ← hkk,
        pyDictGet_insert_self m kv.1 kv.2]
      exact h
    · rw [pyDictGet, if_neg hkk] at h
      exact ih (pyDictInsert m kv.1 kv.2) hnd h

/-! ## Supporting lemmas: the sanitisation map of `upload_asset` -/

/-- The per-entry function applied by `sanitizeMetadata`. -/
theorem sanitizeMetadata_eq_filterMap (m : List (String × JsonVal)) :
    sanitizeMetadata m = m.filterMap fun kv =>
      match kv.2 with
      | JsonVal.null => none
      | v => if v.isStructured then some (kv.1, JsonVal.str (dumps v)) else some (kv.1, v) :=
  rfl

theorem sanitize_entry_key {k k' : String} {v : JsonVal} {w : JsonVal}
    (h : (match v with
          | JsonVal.null => none
          | v' => if v'.isStructured then some (k, JsonVal.str (dumps v'))
                  else some (k, v')) = some (k', w)) : k = k' := by
  cases v with
  | null => cases h
  | bool b =>
    simp only [JsonVal.isStructured, Bool.false_eq_true, if_neg] at h
    exact (Prod.mk.injEq .. ▸ Option.some.inj h).1
  | num n =>
    simp only [JsonVal.isStructured, Bool.false_eq_true, if_neg] at h
    exact (Prod.mk.injEq .. ▸ Option.some.inj h).1
  | str s =>
    simp only [JsonVal.isStructured, Bool.false_eq_true, if_neg] at h
    exact (Prod.mk.injEq .. ▸ Option.some.inj h).1
  | arr xs =>
    simp only [JsonVal.isStructured, if_pos] at h
    exact (Prod.mk.injEq .. ▸ Option.some.inj h).1
  | obj kvs =>
    simp only [JsonVal.isStructured, if_pos] at h
    exact (Prod.mk.injEq .. ▸ Option.some.inj h).1

theorem assoc_key_unique {β : Type} {m : List (String × β)}
    (hnd : (m.map Prod.fst).Nodup) {k : String} {a b : β}
    (ha : (k, a) ∈ m) (hb : (k, b) ∈ m) : a = b := by
  induction m with
  | nil => cases ha
  | cons kv rest ih =>
    rw [List.map_cons, List.nodup_cons] at hnd
    obtain ⟨hk, hnd⟩ := hnd
    rcases List.mem_cons.mp ha with h1 | h1 <;> rcases List.mem_cons.mp hb with h2 | h2
    · rw [← h1] at h2
      exact ((Prod.mk.injEq .. ▸ h2).2).symm
    · exfalso
      have hmem : k ∈ rest.map Prod.fst := List.mem_map.mpr ⟨(k, b), h2, rfl⟩
      rw [← h1] at hk
      exact hk hmem
    · exfalso
      have hmem : k ∈ rest.map Prod.fst := List.mem_map.mpr ⟨(k, a), h1, rfl⟩
      rw [← h2] at hk
      exact hk hmem
    · exact ih hnd h1 h2

theorem sanitize_mem_structured {m : List (String × JsonVal)} {k : String} {v : JsonVal}
    (hm : (k, v) ∈ m) (hs : v.isStructured = true) :
    (k, JsonVal.str (dumps v)) ∈ sanitizeMetadata m := by
  unfold sanitizeMetadata
  refine List.mem_filterMap.mpr ⟨(k, v), hm, ?_⟩
  cases v with
  | null => simp [JsonVal.isStructured] at hs
  | bool b => simp [JsonVal.isStructured] at hs
  | num n => simp [JsonVal.isStructured] at hs
  | str s => simp [JsonVal.isStructured] at hs
  | arr xs => rfl
  | obj kvs => rfl

theorem sanitize_mem_plain {m : List (String × JsonVal)} {k : String} {v : JsonVal}
    (hm : (k, v) ∈ m) (hn : v ≠ JsonVal.null) (hs : v.isStructured = false) :
    (k, v) ∈ sanitizeMetadata m := by
  unfold sanitizeMetadata
  refine List.mem_filterMap.mpr ⟨(k, v), hm, ?_⟩
  cases v with
  | null => exact absurd rfl hn
  | bool b => rfl
  | num n => rfl
  | str s => rfl
  | arr xs => simp [JsonVal.isStructured] at hs
  | obj kvs => simp [JsonVal.isStructured] at hs

theorem sanitize_not_mem_of_null {m : List (String × JsonVal)}
    (hnd : (m.map Prod.fst).Nodup) {k : String}
    (hm : (k, JsonVal.null) ∈ m) (w : JsonVal) : (k, w) ∉ sanitizeMetadata m := by
  intro hmem
  unfold sanitizeMetadata at hmem
  obtain ⟨⟨k', v'⟩, hm', hf⟩ := List.mem_filterMap.mp hmem
  have hkk : k' = k := sanitize_entry_key hf
  subst hkk
  have hv : v' = JsonVal.null := assoc_key_unique hnd hm' hm
  subst hv
  cases hf

/-! ## Supporting lemmas: the page-projection loops -/

theorem projectImages_congr_at24 (gen gen' : SasGen)
    (h : ∀ b c, gen b c 24 = gen' b c 24) (rs : List AssetRecord) :
    projectImages gen rs = projectImages gen' rs := by
  induction rs with
  | nil => rfl
  | cons r rs ih =>
    simp only [projectImages]
    rw [h r.blob_name r.container, ih]

theorem projectGalleryItems_congr_at24 (gen gen' : SasGen)
    (h : ∀ b c, gen b c 24 = gen' b c 24) (rs : List AssetRecord) :
    projectGalleryItems gen rs = projectGalleryItems gen' rs := by
  induction rs with
  | nil => rfl
  | cons r rs ih =>
    simp only [projectGalleryItems]
    rw [h r.blob_name r.container, ih]

theorem projectImages_error_of_gen_failure (gen : SasGen) (rs : List AssetRecord)
    (h : ∃ r ∈ rs, ∃ e, gen r.blob_name r.container 24 = Except.error e) :
    ∃ e, projectImages gen rs = Except.error e := by
  induction rs with
  | nil => simp at h
  | cons r rs ih =>
    obtain ⟨r0, hr0, e0, he0⟩ := h
    cases hg : gen r.blob_name r.container 24 with
    | error e => exact ⟨e, by simp [projectImages, hg]⟩
    | ok url =>
      have hx : ∃ r' ∈ rs, ∃ e, gen r'.blob_name r'.container 24 = Except.error e := by
        rcases List.mem_cons.mp hr0 with h1 | h1
        · subst h1
          rw [hg] at he0
          cases he0
        · exact ⟨r0, h1, e0, he0⟩
      obtain ⟨e, hpe⟩ := ih hx
      exact ⟨e, by simp [projectImages, hg, hpe]⟩

theorem projectGalleryItems_error_of_gen_failure (gen : SasGen) (rs : List AssetRecord)
    (h : ∃ r ∈ rs, ∃ e, gen r.blob_name r.container 24 = Except.error e) :
    ∃ e, projectGalleryItems gen rs = Except.error e := by
  induction rs with
  | nil => simp at h
  | cons r rs ih =>
    obtain ⟨r0, hr0, e0, he0⟩ := h
    cases hg : gen r.blob_name r.container 24 with
    | error e => exact ⟨e, by simp [projectGalleryItems, hg]⟩
    | ok url =>
      have hx : ∃ r' ∈ rs, ∃ e, gen r'.blob_name r'.container 24 = Except.error e := by
        rcases List.mem_cons.mp hr0 with h1 | h1
        · subst h1
          rw [hg] at he0
          cases he0
        · exact ⟨r0, h1, e0, he0⟩
      obtain ⟨e, hpe⟩ := ih hx
      by_cases hv : (r.media_type = "image" || r.media_type = "video") = true
      · exact ⟨e, by simp [projectGalleryItems, hg, hv, hpe]⟩
      · exact ⟨"'" ++ r.media_type ++ "' is not a valid MediaType",
          by simp [projectGalleryItems, hg, hv]⟩

/-! ## Claim theorems -/

/-- **C1** (code-bug evidence): for a `POST /upload` whose file name has a
disallowed extension for its declared media type, and for one whose
metadata form field is not valid JSON, the handler body does raise
`HTTPException(400)` before any store call — but the endpoint's blanket
`except Exception` catches that exception and re-raises
`HTTPException(500, str(e))`, so the response status is 500, not the
claimed 400. No store mutation happens on either path. -/
theorem upload_invalid_input_returns_500_no_mutation :
    (uploadBody uploadWorldOk badExtensionReq).1 =
      Except.error (PyExn.http 400
        "Invalid file type. Must be one of .jpg, .jpeg, .png, .gif, .webp, .svg, .bmp") ∧
    (upload_asset uploadWorldOk badExtensionReq).response.errorStatus = some 500 ∧
    (upload_asset uploadWorldOk badExtensionReq).blobUploadCalled = false ∧
    (upload_asset uploadWorldOk badExtensionReq).cosmosCreateCalled = false ∧
    (uploadBody uploadWorldOk badJsonReq).1 =
      Except.error (PyExn.http 400 "Invalid JSON format for metadata") ∧
    (upload_asset uploadWorldOk badJsonReq).response.errorStatus = some 500 ∧
    (upload_asset uploadWorldOk badJsonReq).blobUploadCalled = false ∧
    (upload_asset uploadWorldOk badJsonReq).cosmosCreateCalled = false := by
  exact ⟨rfl, rfl, rfl, rfl, rfl, rfl, rfl, rfl⟩

/-- **C2** (code-bug evidence): with `AZURE_COSMOS_DB_ENDPOINT` unset, the
`Depends(get_cosmos_service)` dependency raises `HTTPException(503)`, so
`POST /upload` and `DELETE /delete` fail with 503 before the blob store is
touched, instead of degrading to blob-store-only operation; only the raw
content read path, which has no metadata-store dependency, succeeds. -/
theorem upload_delete_503_when_metadata_unconfigured :
    (upload_asset uploadWorldNoCosmos plainPngReq).response.errorStatus = some 503 ∧
    (upload_asset uploadWorldNoCosmos plainPngReq).blobUploadCalled = false ∧
    (delete_asset deleteWorldNoCosmos deleteReqImage).response.errorStatus = some 503 ∧
    (delete_asset deleteWorldNoCosmos deleteReqImage).cosmosDeleteArgs = none ∧
    get_asset_content_endpoint contentWorldNoCosmos MediaType.image "pic.png" =
      Response.ok ([137, 80, 78], "image/png") := by
  exact ⟨rfl, rfl, rfl, rfl, rfl⟩

/-- **C3 counterexample**: on a two-record page where SAS generation
succeeds for the first record and fails for the second, both listing
endpoints return a single 500 for the whole page: the failing item is not
skipped, and the item whose URL generation succeeded is not returned. -/
theorem page_projection_single_failure_fails_page_cex :
    genFailB "a.png" "images" 24 = Except.ok "https://sas/a.png" ∧
    get_gallery_images genFailB [recA, recB] 2 50 0 =
      Response.httpError 500 "Failed to retrieve images: boom" ∧
    get_gallery_items genFailB [recA, recB] 2 50 0 = Response.httpError 500 "boom" := by
  exact ⟨rfl, rfl, rfl⟩

/-- **C3** (amended): a URL-generation failure for any record of the page
fails the whole page: `/images` and `/` surface a single handler-level
HTTP 500 and return no items (fail-fast, not skip-and-log). -/
theorem page_projection_failure_fails_whole_page
    (gen : SasGen) (records : List AssetRecord) (total limit offset : Nat)
    (h : ∃ r ∈ records, ∃ e, gen r.blob_name r.container 24 = Except.error e) :
    (∃ d, get_gallery_images gen records total limit offset = Response.httpError 500 d) ∧
    (∃ d, get_gallery_items gen records total limit offset = Response.httpError 500 d) := by
  obtain ⟨e1, h1⟩ := projectImages_error_of_gen_failure gen records h
  obtain ⟨e2, h2⟩ := projectGalleryItems_error_of_gen_failure gen records h
  exact ⟨⟨"Failed to retrieve images: " ++ e1, by simp [get_gallery_images, h1]⟩,
         ⟨e2, by simp [get_gallery_items, h2]⟩⟩

/-- Closed instance of the amended C3 theorem. -/
theorem page_projection_failure_fails_whole_page_witness :
    (∃ r ∈ [recA, recB], ∃ e, genFailB r.blob_name r.container 24 = Except.error e) ∧
    (∃ d, get_gallery_images genFailB [recA, recB] 2 50 0 = Response.httpError 500 d) := by
  have hx : ∃ r ∈ [recA, recB], ∃ e, genFailB r.blob_name r.container 24 = Except.error e :=
    ⟨recB, by simp, "boom", rfl⟩
  exact ⟨hx, (page_projection_failure_fails_whole_page genFailB [recA, recB] 2 50 0 hx).1⟩

/-- **C4**: when the metadata store is configured and the blob operation
succeeds, a raising Cosmos create (on upload) or Cosmos delete (on
delete) is caught and logged inside the handler: the response still
reports success based solely on the blob-store outcome. -/
theorem metadata_failure_nonfatal_upload_delete
    (uw : UploadWorld) (ureq : UploadRequest) (dw : DeleteWorld) (dreq : DeleteRequest)
    (ures : BlobUploadResult) (c : String)
    (hu_dep : get_cosmos_service uw.settings uw.cosmosInitFailure = Except.ok ())
    (_hu_fail : uw.cosmosCreateFailure.isSome = true)
    (hu_ext : (validExtensions ureq.media_type).any
        (fun ext => pyEndsWith (pyLower ureq.filename) ext) = true)
    (hu_meta : ∃ md, parseUploadMetadata ureq.metadata = Except.ok md)
    (hu_blob : uw.blobUpload = Except.ok ures)
    (hd_dep : get_cosmos_service dw.settings dw.cosmosInitFailure = Except.ok ())
    (_hd_fail : dw.cosmosDeleteFailure.isSome = true)
    (hd_cont : resolveContainer dw.settings dreq = Except.ok c)
    (hd_blob : dw.blobDelete = Except.ok true) :
    (upload_asset uw ureq).response =
      Response.ok { success := true
                    message := capitalizedValue ureq.media_type ++ " uploaded successfully"
                    result := ures } ∧
    (delete_asset dw dreq).response =
      Response.ok { success := true, message := "Asset deleted successfully",
                    blob_name := dreq.blob_name, container := c } := by
  constructor
  · obtain ⟨md, hmd⟩ := hu_meta
    simp [upload_asset, hu_dep, uploadBody, hu_ext, hmd, hu_blob]
  · simp [delete_asset, hd_dep, deleteBody, hd_cont, hd_blob]

/-- Closed instance of the C4 theorem. -/
theorem metadata_failure_nonfatal_upload_delete_witness :
    (upload_asset uploadWorldCosmosFails plainPngReq).response =
      Response.ok { success := true, message := "Image uploaded successfully",
                    result := pngBlobResult } ∧
    (delete_asset deleteWorldCosmosFails deleteReqImage).response =
      Response.ok { success := true, message := "Asset deleted successfully",
                    blob_name := "pic.png", container := "images" } := by
  have h := metadata_failure_nonfatal_upload_delete uploadWorldCosmosFails plainPngReq
    deleteWorldCosmosFails deleteReqImage pngBlobResult "images"
    rfl rfl rfl ⟨none, rfl⟩ rfl rfl rfl rfl rfl
  exact ⟨h.1, h.2⟩

/-- **C5** (code-bug evidence): with both stores healthy, a successful
AI-client import and zero AI clients configured, the AI service status is
`"unhealthy"` yet `overall_status` stays `"healthy"`: the aggregate is not
`"degraded"` whenever one dependent service is unhealthy, contradicting
the claim. -/
theorem health_overall_healthy_despite_unhealthy_ai :
    health_check healthWorldNoAi =
      Response.ok { blob_status := "healthy", cosmos_status := "healthy",
                    ai_status := "unhealthy", overall_status := "healthy" } ∧
    ("healthy" : String) ≠ "degraded" := by
  exact ⟨rfl, by decide⟩

/-- **C6 counterexample**: on a record with no stored fields, the built-in
key `has_transparency` is projected as `str(False) = "False"`, not the
empty string the claim says all absent built-in keys default to. -/
theorem builtin_default_not_empty_cex :
    pyDictGet (imageItemMetadata emptyRecord) "has_transparency" = some "False" ∧
    (some "False" : Option String) ≠ some "" := by
  exact ⟨rfl, by decide⟩

/-- **C6** (amended): custom metadata is merged last in all three listing
projections, so its value wins for every key it contains; keys untouched
by custom metadata keep their computed values; built-in keys absent from
the record default to `""`, except `has_transparency`, which defaults to
`"False"`. -/
theorem custom_metadata_overrides_and_defaults
    (r : AssetRecord) (k v : String)
    (hnd : ((r.custom_metadata.getD []).map Prod.fst).Nodup)
    (hget : pyDictGet (r.custom_metadata.getD []) k = some v) :
    (pyDictGet (imageItemMetadata r) k = some v ∧
     pyDictGet (videoItemMetadata r) k = some v ∧
     pyDictGet (itemsEndpointMetadata r) k = some v) ∧
    (∀ k', (∀ kv ∈ r.custom_metadata.getD [], kv.1 ≠ k') →
       pyDictGet (imageItemMetadata r) k' = pyDictGet (builtinImageMetadata r) k') ∧
    imageItemMetadata emptyRecord =
      [("prompt", ""), ("model", ""), ("summary", ""), ("description", ""),
       ("products", ""), ("tags", ""), ("quality", ""), ("background", ""),
       ("output_format", ""), ("has_transparency", "False"), ("generation_id", "")] := by
  refine ⟨⟨?_, ?_, ?_⟩, ?_, rfl⟩
  · simp only [imageItemMetadata]
    exact pyDictGet_extend_of_get _ _ _ _ hnd hget
  · simp only [videoItemMetadata]
    exact pyDictGet_extend_of_get _ _ _ _ hnd hget
  · simp only [itemsEndpointMetadata]
    exact pyDictGet_extend_of_get _ _ _ _ hnd hget
  · intro k' hk'
    simp only [imageItemMetadata]
    exact pyDictGet_extend_not_mem _ _ _ hk'

/-- Closed instance of the amended C6 theorem. -/
theorem custom_metadata_overrides_and_defaults_witness :
    pyDictGet (imageItemMetadata overrideRecord) "prompt" = some "custom prompt" := by
  have h := custom_metadata_overrides_and_defaults overrideRecord "prompt" "custom prompt"
    (by decide) rfl
  exact h.1.1

/-- **C7**: the listing projections query the SAS generator only at a
24-hour expiry — any two generators agreeing at 24 hours produce
identical pages — and `GET /sas-tokens` issues exactly two read-only
container-scoped token calls, one per container, each expiring 1 hour
from issuance, whose results are the returned tokens. -/
theorem sas_expiry_windows :
    (∀ gen gen' : SasGen, (∀ b c, gen b c 24 = gen' b c 24) →
       ∀ rs : List AssetRecord,
         projectImages gen rs = projectImages gen' rs ∧
         projectGalleryItems gen rs = projectGalleryItems gen' rs) ∧
    (∀ (s : Settings) (genSas : SasCall → String),
       (get_sas_tokens s genSas).2.length = 2 ∧
       (get_sas_tokens s genSas).2.map SasCall.read_only = [true, true] ∧
       (get_sas_tokens s genSas).2.map SasCall.expiry_hours = [1, 1] ∧
       (get_sas_tokens s genSas).2.map SasCall.container_name =
         [s.videoContainer, s.imageContainer] ∧
       (get_sas_tokens s genSas).1.video_sas_token =
         genSas { account_name := s.storageAccountName,
                  container_name := s.videoContainer, read_only := true,
                  expiry_hours := 1 } ∧
       (get_sas_tokens s genSas).1.image_sas_token =
         genSas { account_name := s.storageAccountName,
                  container_name := s.imageContainer, read_only := true,
                  expiry_hours := 1 } ∧
       (get_sas_tokens s genSas).1.expiry_hours_from_now = 1) := by
  constructor
  · intro gen gen' h rs
    exact ⟨projectImages_congr_at24 gen gen' h rs,
           projectGalleryItems_congr_at24 gen gen' h rs⟩
  · intro s genSas
    exact ⟨rfl, rfl, rfl, rfl, rfl, rfl, rfl⟩

/-- Closed instance of the C7 theorem. -/
theorem sas_expiry_windows_witness :
    projectImages genEcho [recA] = projectImages genAt24 [recA] ∧
    (get_sas_tokens configuredSettings SasCall.container_name).2.map SasCall.expiry_hours
      = [1, 1] := by
  exact ⟨(sas_expiry_windows.1 genEcho genAt24 (fun b c => rfl) [recA]).1,
         (sas_expiry_windows.2 configuredSettings SasCall.container_name).2.2.1⟩

/-- **C8**: `DELETE /delete` attempts the metadata-record deletion before
the blob deletion, so when the blob is absent the endpoint returns 404
even though the metadata record (if it existed and the store was
reachable) has already been deleted: a 404 does not imply the stored
state is unchanged. -/
theorem delete_404_after_metadata_delete
    (w : DeleteWorld) (req : DeleteRequest) (c : String)
    (hdep : get_cosmos_service w.settings w.cosmosInitFailure = Except.ok ())
    (hcont : resolveContainer w.settings req = Except.ok c)
    (hnofail : w.cosmosDeleteFailure = none)
    (hblob : w.blobDelete = Except.ok false) :
    (delete_asset w req).response = Response.httpError 404 "Asset not found" ∧
    (delete_asset w req).cosmosRecordDeleted = true ∧
    (delete_asset w req).cosmosDeleteArgs =
      some (assetIdOf req.blob_name, deleteMediaTypeStr w.settings c) := by
  refine ⟨?_, ?_, ?_⟩ <;> simp [delete_asset, hdep, deleteBody, hcont, hnofail, hblob]

/-- Closed instance of the C8 theorem. -/
theorem delete_404_after_metadata_delete_witness :
    (delete_asset deleteWorldBlobMissing deleteReqImage).response =
      Response.httpError 404 "Asset not found" ∧
    (delete_asset deleteWorldBlobMissing deleteReqImage).cosmosRecordDeleted = true := by
  have h := delete_404_after_metadata_delete deleteWorldBlobMissing deleteReqImage
    "images" rfl rfl rfl rfl
  exact ⟨h.1, h.2.1⟩

/-- **C9**: the identifier passed to the metadata-store delete equals the
last slash-separated segment of the substring of `blob_name` before its
first `'.'` (so `"folder/name.png"` yields `"name"` and a dotted folder
yields a folder segment), and the media type passed is `"image"` exactly
when the resolved container equals the configured image container,
`"video"` in every other case. -/
theorem delete_cosmos_args_characterization :
    (∀ name : String, assetIdOf name = claimAssetId name) ∧
    assetIdOf "folder/name.png" = "name" ∧
    assetIdOf "my.folder/name.png" = "my" ∧
    (∀ (w : DeleteWorld) (req : DeleteRequest) (c : String),
      resolveContainer w.settings req = Except.ok c →
      (deleteBody w req).2.1 =
        some (claimAssetId req.blob_name, deleteMediaTypeStr w.settings c) ∧
      (deleteMediaTypeStr w.settings c = "image" ↔ c = w.settings.imageContainer) ∧
      (c ≠ w.settings.imageContainer → deleteMediaTypeStr w.settings c = "video")) := by
  refine ⟨assetIdOf_eq_claimAssetId, rfl, rfl, ?_⟩
  intro w req c hcont
  refine ⟨?_, ⟨?_, ?_⟩, ?_⟩
  · rw [← assetIdOf_eq_claimAssetId]
    cases hb : w.blobDelete with
    | error msg => simp [deleteBody, hcont, hb]
    | ok b => cases b <;> simp [deleteBody, hcont, hb]
  · intro h
    by_contra hc
    simp only [deleteMediaTypeStr, if_neg hc] at h
    exact absurd h (by decide)
  · intro h
    simp [deleteMediaTypeStr, h]
  · intro h
    simp [deleteMediaTypeStr, h]

/-- Closed instance of the C9 theorem. -/
theorem delete_cosmos_args_characterization_witness :
    (deleteBody deleteWorldCosmosFails
      { blob_name := "folder/name.png", media_type := some MediaType.image,
        container := none }).2.1 = some ("name", "image") := by
  have h := (delete_cosmos_args_characterization.2.2.2 deleteWorldCosmosFails
    { blob_name := "folder/name.png", media_type := some MediaType.image,
      container := none } "images" rfl).1
  rw [h]
  decide

/-- **C10**: during upload metadata parsing, every null-valued key is
removed, every dict- or list-valued entry is replaced by its
JSON-serialized string, every other entry passes through unchanged, and a
nonempty parsed metadata dict is stored exactly as its sanitised form. -/
theorem upload_metadata_sanitization_spec
    (m : List (String × JsonVal)) (hnd : (m.map Prod.fst).Nodup) :
    (∀ k, (k, JsonVal.null) ∈ m → ∀ w, (k, w) ∉ sanitizeMetadata m) ∧
    (∀ k v, (k, v) ∈ m → v.isStructured = true →
       (k, JsonVal.str (dumps v)) ∈ sanitizeMetadata m) ∧
    (∀ k v, (k, v) ∈ m → v ≠ JsonVal.null → v.isStructured = false →
       (k, v) ∈ sanitizeMetadata m) ∧
    (∀ kvs : List (String × JsonVal), kvs ≠ [] →
       parseUploadMetadata (some (Except.ok (JsonVal.obj kvs))) =
         Except.ok (some (JsonVal.obj (sanitizeMetadata kvs)))) := by
  refine ⟨?_, ?_, ?_, ?_⟩
  · intro k hm w
    exact sanitize_not_mem_of_null hnd hm w
  · intro k v hm hs
    exact sanitize_mem_structured hm hs
  · intro k v hm hn hs
    exact sanitize_mem_plain hm hn hs
  · intro kvs hne
    cases kvs with
    | nil => exact absurd rfl hne
    | cons kv rest => rfl

/-- Closed instance of the C10 theorem. -/
theorem upload_metadata_sanitization_spec_witness :
    (∀ w, ("a", w) ∉ sanitizeMetadata sanitizeSample) ∧
    ("c", JsonVal.str "\x7b\"x\": 1\x7d") ∈ sanitizeMetadata sanitizeSample ∧
    ("b", JsonVal.num 3) ∈ sanitizeMetadata sanitizeSample := by
  have h := upload_metadata_sanitization_spec sanitizeSample (by decide)
  refine ⟨fun w => h.1 "a" (List.Mem.head _) w, ?_, ?_⟩
  · exact h.2.1 "c" (JsonVal.obj [("x", JsonVal.num 1)])
      (List.Mem.tail _ (List.Mem.tail _ (List.Mem.head _))) rfl
  · exact h.2.2.1 "b" (JsonVal.num 3) (List.Mem.tail _ (List.Mem.head _))
      (fun hh => JsonVal.noConfusion hh) rfl

end VisionaryLab
